import Mathlib

/-!
# sick_ldmrs_driver: payload dispatch and live reconfiguration

A shallow embedding of `SickLDMRS::setData`, `SickLDMRS::validate_config` and
`SickLDMRS::update_config` from `src/sick_ldmrs800001s01.cpp`.

Every observable effect of the C++ code (ROS log records, lines written to
`std::cout`, calls on the LD-MRS device handle) is recorded, in program order,
as an `Event` in a trace.  Angles and frequencies are `double` in the source;
they are taken here as exact rationals.
-/

namespace sick_ldmrs_driver

/-! ## Observable effects -/

/-- One observable effect of the driver application. -/
inductive Event where
  /-- A `ROS_INFO` record with the formatted text. -/
  | info (text : String)
  /-- A `ROS_WARN` record with the formatted text. -/
  | warn (text : String)
  /-- A `ROS_ERROR` record with the formatted text. -/
  | error (text : String)
  /-- The statement `std::cout << label << value << std::endl` for a `double` value. -/
  | coutNum (label : String) (value : ℚ)
  /-- The statement `std::cout << label << value << std::endl` for a string value. -/
  | coutStr (label : String) (value : String)
  /-- The statement `std::cout << label << value << std::endl` for an `int` value. -/
  | coutInt (label : String) (value : Int)
  /-- The call `ldmrs->setScanAngles(startAngle, endAngle)`. -/
  | setScanAngles (startAngle endAngle : ℚ)
  /-- The call `ldmrs->setScanFrequency(hz)`. -/
  | setScanFrequency (hz : ℚ)
  deriving DecidableEq

namespace Event

/-- Recognises a `setScanAngles` device call. -/
def isSetScanAngles : Event → Bool
  | setScanAngles _ _ => true
  | _ => false

/-- Recognises a `setScanFrequency` device call. -/
def isSetScanFrequency : Event → Bool
  | setScanFrequency _ => true
  | _ => false

/-- Recognises a call on the device handle. -/
def isDeviceCall (e : Event) : Bool :=
  e.isSetScanAngles || e.isSetScanFrequency

/-- Recognises a `ROS_WARN` record. -/
def isWarn : Event → Bool
  | warn _ => true
  | _ => false

/-- Recognises a `ROS_ERROR` record. -/
def isError : Event → Bool
  | error _ => true
  | _ => false

/-- Recognises a `ROS_INFO` record. -/
def isInfo : Event → Bool
  | info _ => true
  | _ => false

end Event

/-! ## Configuration -/

/-- Modelled from the spec: the dynamic-reconfigure type `SickLDMRSDriverConfig`
is generated from a `.cfg` file that is not part of the sources.  The four
fields the code reads are kept by name; every other parameter of the generated
type is carried, untouched, in `rest`. -/
structure SickLDMRSDriverConfig (Rest : Type) where
  start_angle : ℚ
  end_angle : ℚ
  frame_id : String
  scan_frequency : Int
  rest : Rest
  deriving DecidableEq

/-- Modelled from the spec: the generated constant `SickLDMRSDriver_ScanFreq1250`
(selector for 12.5 Hz). -/
def SickLDMRSDriver_ScanFreq1250 : Int := 1250

/-- Modelled from the spec: the generated constant `SickLDMRSDriver_ScanFreq2500`
(selector for 25.0 Hz). -/
def SickLDMRSDriver_ScanFreq2500 : Int := 2500

/-- Modelled from the spec: the generated constant `SickLDMRSDriver_ScanFreq5000`
(selector for 50.0 Hz). -/
def SickLDMRSDriver_ScanFreq5000 : Int := 5000

/-- The text of the warning logged by `validate_config`. -/
def startAngleWarning : String :=
  "Start angle must be greater than end angle. Adjusting start_angle."

/-- The text of the warning logged by `update_config` when no device is found. -/
def noConnectionWarning : String :=
  "update_config: no connection to LDMRS!"

/-- The method `SickLDMRS::validate_config`: the configuration is passed by reference; the
result is the configuration after the call together with the log records
emitted. -/
def validate_config {Rest : Type} (conf : SickLDMRSDriverConfig Rest) :
    SickLDMRSDriverConfig Rest × List Event :=
  if conf.start_angle ≤ conf.end_angle then
    ({ conf with start_angle := conf.end_angle }, [Event.warn startAngleWarning])
  else
    (conf, [])

/-! ## Reconfiguration -/

/-- The part of the `SickLDMRS` application object that `update_config` writes:
the member `config_`.  The member `manager_` is only queried, and the answer of
that query is an argument of `update_config` below. -/
structure SickLDMRS (Rest : Type) where
  config_ : SickLDMRSDriverConfig Rest
  deriving DecidableEq

/-- What a call of `update_config` leaves behind: the application object, the
by-reference argument `new_config`, and the trace of effects in program
order. -/
structure UpdateResult (Rest : Type) where
  self : SickLDMRS Rest
  new_config : SickLDMRSDriverConfig Rest
  trace : List Event
  deriving DecidableEq

/-- The four lines `update_config` writes to `std::cout`. -/
def printConfig {Rest : Type} (config_ : SickLDMRSDriverConfig Rest) : List Event :=
  [ Event.coutNum "start_angle:    " config_.start_angle,
    Event.coutNum "end_angle:      " config_.end_angle,
    Event.coutStr "frame_id:       " config_.frame_id,
    Event.coutInt "scan_frequency: " config_.scan_frequency ]

/-- The statement lists under the four labels of the `switch` on
`config_.scan_frequency`, in source order: `case ScanFreq1250`,
`case ScanFreq2500`, `case ScanFreq5000`, `default`. -/
def scanFrequencyBodies (scan_frequency : Int) : List (List Event) :=
  [ [Event.setScanFrequency (25 / 2)],
    [Event.setScanFrequency 25],
    [Event.setScanFrequency 50],
    [Event.error ("Unknown scan frequency: " ++ toString scan_frequency)] ]

/-- The index of the label the `switch` jumps to. -/
def scanFrequencyEntry (scan_frequency : Int) : Nat :=
  if scan_frequency = SickLDMRSDriver_ScanFreq1250 then 0
  else if scan_frequency = SickLDMRSDriver_ScanFreq2500 then 1
  else if scan_frequency = SickLDMRSDriver_ScanFreq5000 then 2
  else 3

/-- The `switch (config_.scan_frequency)` of `update_config`.  No label's
statement list ends in `break`, so control runs from the entry label through
every later label to the end of the `switch`. -/
def scanFrequencySwitch (scan_frequency : Int) : List Event :=
  ((scanFrequencyBodies scan_frequency).drop (scanFrequencyEntry scan_frequency)).flatten

/-- The method `SickLDMRS::update_config`.  `ldmrs` is the result of
`dynamic_cast<devices::LDMRS*>(manager_->getFirstDeviceByType(Sourcetype_LDMRS))`:
`none` for `NULL`, `some id` for a device handle.  The argument `level` is
not read. -/
def update_config {Rest : Type} (ldmrs : Option Nat) (self : SickLDMRS Rest)
    (new_config : SickLDMRSDriverConfig Rest) (_level : Nat) : UpdateResult Rest :=
  let validated := validate_config new_config
  let new_config := validated.1
  let self : SickLDMRS Rest := { self with config_ := new_config }
  let trace := validated.2 ++ printConfig self.config_
  match ldmrs with
  | none =>
    { self := self, new_config := new_config,
      trace := trace ++ [Event.warn noConnectionWarning] }
  | some _ =>
    { self := self, new_config := new_config,
      trace := trace
        ++ [Event.setScanAngles new_config.start_angle new_config.end_angle]
        ++ scanFrequencySwitch self.config_.scan_frequency }

/-! ## Payload dispatch -/

/-- Modelled from the spec: the library class `Time`; only its rendering by
`Time::toString` is observed by the driver. -/
structure Time where
  text : String
  deriving DecidableEq

/-- The method `Time::toString`. -/
def Time.toString (t : Time) : String := t.text

/-- Modelled from the spec: the library class `ScannerInfo`, one per scanner
head contributing to a scan; only the start timestamp is read. -/
structure ScannerInfo where
  startTimestamp : Time
  deriving DecidableEq

/-- The method `ScannerInfo::getStartTimestamp`. -/
def ScannerInfo.getStartTimestamp (i : ScannerInfo) : Time := i.startTimestamp

/-- Modelled from the spec: the library enumeration `Datatype`.  The seven tags
`setData` names are kept; every other tag value is `other code`. -/
inductive Datatype where
  | Scan
  | Objects
  | Fields
  | EvalCases
  | EvalCaseResults
  | Msg
  | MeasurementList
  | other (code : Nat)
  deriving DecidableEq

/-- The seven tags for which `setData` has a `case` label. -/
def Datatype.known : Datatype → Bool
  | Datatype.other _ => false
  | _ => true

/-- Modelled from the spec: the contents of the library classes derived from
`BasicData`, restricted to what `setData` reads through its casts. -/
inductive Payload where
  /-- Class `Scan`: `getNumPoints()` and `getScannerInfos()`. -/
  | scan (numPoints : Nat) (scannerInfos : List ScannerInfo)
  /-- Class `ObjectList`: `size()`. -/
  | objects (size : Nat)
  /-- Class `Fields`: `getFields().size()` and `getNumberOfValidFields()`. -/
  | fields (numFields : Nat) (numberOfValidFields : Nat)
  /-- Class `EvalCases`: `getEvalCases().size()`. -/
  | evalCases (numCases : Nat)
  /-- Class `EvalCaseResults`: `size()`. -/
  | evalCaseResults (size : Nat)
  /-- Class `Msg`: `toString()`. -/
  | msg (text : String)
  /-- Class `MeasurementList`: `m_list.size()`. -/
  | measurementList (size : Nat)
  /-- Any other class, with its tag value. -/
  | other (code : Nat)
  deriving DecidableEq

/-- Modelled from the spec: the library base class `BasicData`, a source id
and the contents of the dynamic type. -/
structure BasicData where
  sourceId : Nat
  payload : Payload
  deriving DecidableEq

/-- The method `BasicData::getDatatype`. -/
def BasicData.getDatatype (data : BasicData) : Datatype :=
  match data.payload with
  | Payload.scan _ _ => Datatype.Scan
  | Payload.objects _ => Datatype.Objects
  | Payload.fields _ _ => Datatype.Fields
  | Payload.evalCases _ => Datatype.EvalCases
  | Payload.evalCaseResults _ => Datatype.EvalCaseResults
  | Payload.msg _ => Datatype.Msg
  | Payload.measurementList _ => Datatype.MeasurementList
  | Payload.other code => Datatype.other code

/-- The method `BasicData::getSourceId`. -/
def BasicData.getSourceId (data : BasicData) : Nat := data.sourceId

/-- What a `%s` conversion of the `ROS_*` logging calls writes for the argument
`s.c_str()`: the characters of `s` before its first NUL character, all of `s`
when it has none. -/
def c_str (s : String) : String :=
  String.mk (s.data.takeWhile (fun c => c != Char.ofNat 0))

/-- The `ROS_INFO` record written for one scanner head, its format being
`"LdmrsApp::setData(): Scan start time: %s"` with the argument
`time.toString().c_str()`. -/
def scanStartRecord (info : ScannerInfo) : Event :=
  Event.info ("LdmrsApp::setData(): Scan start time: " ++
    c_str info.getStartTimestamp.toString)

/-- The `switch (data.getDatatype())` of `setData`: the value it leaves in
`datatypeStr` and the log records it writes.  The tag selects the branch and
the cast in that branch reads the contents of the class carrying the tag, so
the branch is selected here on the contents. -/
def setData_switch (data : BasicData) : String × List Event :=
  match data.payload with
  | Payload.scan numPoints scannerInfos =>
    ("Scan (" ++ toString numPoints ++ " points)", scannerInfos.map scanStartRecord)
  | Payload.objects size =>
    ("Objects (" ++ toString size ++ " objects)", [])
  | Payload.fields numFields numberOfValidFields =>
    ("Fields (" ++ toString numFields ++ " fields, " ++
      toString numberOfValidFields ++ " of which are valid)", [])
  | Payload.evalCases numCases =>
    ("EvalCases (" ++ toString numCases ++ " cases)", [])
  | Payload.evalCaseResults size =>
    ("EvalCaseResults (" ++ toString size ++ " case results)", [])
  | Payload.msg text =>
    ("Msg (" ++ text ++ ")", [])
  | Payload.measurementList size =>
    ("MeasurementList (" ++ toString size ++ " entries)", [])
  | Payload.other _ =>
    ("(unknown)", [])

/-- The summary record `setData` writes last, its format being
`"LdmrsApp::setData(): Called with data of type %s from ID %s"` with the
arguments `datatypeStr.c_str()` and `sourceIdStr.c_str()`. -/
def summaryRecord (datatypeStr sourceIdStr : String) : Event :=
  Event.info ("LdmrsApp::setData(): Called with data of type " ++ c_str datatypeStr ++
    " from ID " ++ c_str sourceIdStr)

/-- The method `SickLDMRS::setData`: the trace of log records written for one payload. -/
def setData (data : BasicData) : List Event :=
  let sw := setData_switch data
  let datatypeStr := sw.1
  let sourceIdStr := toString data.getSourceId
  sw.2 ++ [summaryRecord datatypeStr sourceIdStr]

/-! ## Projections of a trace -/

/-- The `setScanAngles` calls of a trace, in order. -/
def angleCalls (trace : List Event) : List Event :=
  trace.filter Event.isSetScanAngles

/-- The `setScanFrequency` calls of a trace, in order. -/
def frequencyCalls (trace : List Event) : List Event :=
  trace.filter Event.isSetScanFrequency

/-- The calls on the device handle of a trace, in order. -/
def deviceCalls (trace : List Event) : List Event :=
  trace.filter Event.isDeviceCall

/-- The `ROS_ERROR` records of a trace, in order. -/
def errorRecords (trace : List Event) : List Event :=
  trace.filter Event.isError

/-- The `ROS_WARN` records of a trace, in order. -/
def warnRecords (trace : List Event) : List Event :=
  trace.filter Event.isWarn

/-! ## Helper lemmas -/

section helpers

variable {Rest : Type}

theorem validate_config_fst_end_angle (conf : SickLDMRSDriverConfig Rest) :
    (validate_config conf).1.end_angle = conf.end_angle := by
  unfold validate_config
  split <;> rfl

theorem validate_config_fst_scan_frequency (conf : SickLDMRSDriverConfig Rest) :
    (validate_config conf).1.scan_frequency = conf.scan_frequency := by
  unfold validate_config
  split <;> rfl

theorem validate_config_fst_ge (conf : SickLDMRSDriverConfig Rest) :
    (validate_config conf).1.end_angle ≤ (validate_config conf).1.start_angle := by
  unfold validate_config
  split
  · exact le_refl _
  · rename_i h
    exact le_of_lt (not_le.mp h)

theorem validate_config_of_gt (conf : SickLDMRSDriverConfig Rest)
    (h : conf.end_angle < conf.start_angle) : validate_config conf = (conf, []) := by
  unfold validate_config
  rw [if_neg (not_le.mpr h)]

theorem validate_config_snd_cases (conf : SickLDMRSDriverConfig Rest) :
    (validate_config conf).2 = [] ∨ (validate_config conf).2 = [Event.warn startAngleWarning] := by
  unfold validate_config
  split
  · exact Or.inr rfl
  · exact Or.inl rfl

theorem update_config_self (ldmrs : Option Nat) (self : SickLDMRS Rest)
    (conf : SickLDMRSDriverConfig Rest) (level : Nat) :
    (update_config ldmrs self conf level).self.config_ = (validate_config conf).1 := by
  cases ldmrs <;> rfl

theorem update_config_trace_none (self : SickLDMRS Rest)
    (conf : SickLDMRSDriverConfig Rest) (level : Nat) :
    (update_config none self conf level).trace =
      (validate_config conf).2 ++ printConfig (validate_config conf).1
        ++ [Event.warn noConnectionWarning] := rfl

theorem update_config_trace_some (id : Nat) (self : SickLDMRS Rest)
    (conf : SickLDMRSDriverConfig Rest) (level : Nat) :
    (update_config (some id) self conf level).trace =
      (validate_config conf).2 ++ printConfig (validate_config conf).1
        ++ [Event.setScanAngles (validate_config conf).1.start_angle
              (validate_config conf).1.end_angle]
        ++ scanFrequencySwitch (validate_config conf).1.scan_frequency := rfl

theorem scanFrequencySwitch_default (f : Int) (h1 : f ≠ 1250) (h2 : f ≠ 2500)
    (h3 : f ≠ 5000) :
    scanFrequencySwitch f = [Event.error ("Unknown scan frequency: " ++ toString f)] := by
  simp [scanFrequencySwitch, scanFrequencyEntry, scanFrequencyBodies,
    SickLDMRSDriver_ScanFreq1250, SickLDMRSDriver_ScanFreq2500,
    SickLDMRSDriver_ScanFreq5000, h1, h2, h3]

end helpers

/-! ## Configuration validator -/

/-- C1: at the request `start_angle = 1`, `end_angle = 2` the validator logs its
one warning and returns `start_angle = end_angle = 2`: the start angle is
snapped onto the end angle, and is not strictly greater than it. -/
theorem validate_config_snaps_to_end_angle :
    (1 : ℚ) ≤ 2 ∧
    validate_config (⟨1, 2, "ldmrs", 2500, ()⟩ : SickLDMRSDriverConfig Unit) =
      (⟨2, 2, "ldmrs", 2500, ()⟩, [Event.warn startAngleWarning]) ∧
    ¬ ((validate_config (⟨1, 2, "ldmrs", 2500, ()⟩ : SickLDMRSDriverConfig Unit)).1.end_angle <
        (validate_config (⟨1, 2, "ldmrs", 2500, ()⟩ : SickLDMRSDriverConfig Unit)).1.start_angle) := by
  refine ⟨by norm_num, ?_, ?_⟩ <;> simp [validate_config]

/-- C6: `validate_config` returns `end_angle`, `frame_id`, `scan_frequency` and
every remaining parameter as given, for every input; and when `start_angle` is
already greater than `end_angle` it returns the input unchanged and logs
nothing. -/
theorem validate_config_frame {Rest : Type} (conf : SickLDMRSDriverConfig Rest) :
    (validate_config conf).1.end_angle = conf.end_angle ∧
    (validate_config conf).1.frame_id = conf.frame_id ∧
    (validate_config conf).1.scan_frequency = conf.scan_frequency ∧
    (validate_config conf).1.rest = conf.rest ∧
    (conf.start_angle > conf.end_angle → validate_config conf = (conf, [])) := by
  refine ⟨validate_config_fst_end_angle conf, ?_, validate_config_fst_scan_frequency conf,
    ?_, fun h => validate_config_of_gt conf h⟩
  · unfold validate_config
    split <;> rfl
  · unfold validate_config
    split <;> rfl

/-- Witness for C6 at the request `start_angle = 3`, `end_angle = 2`. -/
theorem validate_config_frame_witness :
    (3 : ℚ) > 2 ∧
    validate_config (⟨3, 2, "ldmrs", 2500, ()⟩ : SickLDMRSDriverConfig Unit) =
      (⟨3, 2, "ldmrs", 2500, ()⟩, []) :=
  ⟨by norm_num, (validate_config_frame ⟨3, 2, "ldmrs", 2500, ()⟩).2.2.2.2 (by norm_num)⟩

/-! ## Reconfiguration controller -/

/-- C2: with a device connected, the selector 1250 produces three
`setScanFrequency` calls (12.5, 25 and 50 Hz), the selector 2500 two (25 and
50 Hz) and the selector 5000 one (50 Hz), and each of the three also logs the
unknown-frequency error. -/
theorem update_config_frequency_fallthrough :
    frequencyCalls (update_config (some 1) (⟨⟨2, 1, "old", 5000, ()⟩⟩ : SickLDMRS Unit)
        ⟨3, 2, "ldmrs", 1250, ()⟩ 0).trace =
      [Event.setScanFrequency (25 / 2), Event.setScanFrequency 25, Event.setScanFrequency 50] ∧
    errorRecords (update_config (some 1) (⟨⟨2, 1, "old", 5000, ()⟩⟩ : SickLDMRS Unit)
        ⟨3, 2, "ldmrs", 1250, ()⟩ 0).trace =
      [Event.error "Unknown scan frequency: 1250"] ∧
    frequencyCalls (update_config (some 1) (⟨⟨2, 1, "old", 5000, ()⟩⟩ : SickLDMRS Unit)
        ⟨3, 2, "ldmrs", 2500, ()⟩ 0).trace =
      [Event.setScanFrequency 25, Event.setScanFrequency 50] ∧
    errorRecords (update_config (some 1) (⟨⟨2, 1, "old", 5000, ()⟩⟩ : SickLDMRS Unit)
        ⟨3, 2, "ldmrs", 2500, ()⟩ 0).trace =
      [Event.error "Unknown scan frequency: 2500"] ∧
    frequencyCalls (update_config (some 1) (⟨⟨2, 1, "old", 5000, ()⟩⟩ : SickLDMRS Unit)
        ⟨3, 2, "ldmrs", 5000, ()⟩ 0).trace =
      [Event.setScanFrequency 50] ∧
    errorRecords (update_config (some 1) (⟨⟨2, 1, "old", 5000, ()⟩⟩ : SickLDMRS Unit)
        ⟨3, 2, "ldmrs", 5000, ()⟩ 0).trace =
      [Event.error "Unknown scan frequency: 5000"] := by
  refine ⟨?_, ?_, ?_, ?_, ?_, ?_⟩ <;>
    simp [update_config_trace_some, validate_config, printConfig, scanFrequencySwitch,
      scanFrequencyEntry, scanFrequencyBodies, SickLDMRSDriver_ScanFreq1250,
      SickLDMRSDriver_ScanFreq2500, SickLDMRSDriver_ScanFreq5000, frequencyCalls,
      errorRecords, Event.isSetScanFrequency, Event.isError] <;> rfl

/-- C3: with the active configuration at `end_angle = 1` and a request of
`start_angle = 1/2`, `end_angle = -1/2` (so the new start angle is below the
active end angle), the device calls of `update_config` are one combined
`setScanAngles (1/2) (-1/2)` followed by the frequency calls: no end-angle
operation is sent ahead of the start angle, and the calls are the same as when
the active end angle is `-1`. -/
theorem update_config_single_angle_call :
    (1 / 2 : ℚ) < 1 ∧
    deviceCalls (update_config (some 1) (⟨⟨2, 1, "old", 2500, ()⟩⟩ : SickLDMRS Unit)
        ⟨1 / 2, -1 / 2, "ldmrs", 2500, ()⟩ 0).trace =
      [Event.setScanAngles (1 / 2) (-1 / 2), Event.setScanFrequency 25,
        Event.setScanFrequency 50] ∧
    deviceCalls (update_config (some 1) (⟨⟨2, -1, "old", 2500, ()⟩⟩ : SickLDMRS Unit)
        ⟨1 / 2, -1 / 2, "ldmrs", 2500, ()⟩ 0).trace =
      deviceCalls (update_config (some 1) (⟨⟨2, 1, "old", 2500, ()⟩⟩ : SickLDMRS Unit)
        ⟨1 / 2, -1 / 2, "ldmrs", 2500, ()⟩ 0).trace := by
  refine ⟨by norm_num, ?_, rfl⟩
  rw [update_config_trace_some, validate_config_of_gt _ (by norm_num)]
  simp [printConfig, scanFrequencySwitch,
    scanFrequencyEntry, scanFrequencyBodies, SickLDMRSDriver_ScanFreq1250,
    SickLDMRSDriver_ScanFreq2500, SickLDMRSDriver_ScanFreq5000, deviceCalls,
    Event.isDeviceCall, Event.isSetScanFrequency, Event.isSetScanAngles]

/-- C4: with a device connected and a selector outside {1250, 2500, 5000},
`update_config` logs the unknown-frequency error, makes no `setScanFrequency`
call, and still makes the one `setScanAngles` call with the validated
angles. -/
theorem update_config_unknown_frequency {Rest : Type} (id : Nat) (self : SickLDMRS Rest)
    (conf : SickLDMRSDriverConfig Rest) (level : Nat)
    (h1 : conf.scan_frequency ≠ 1250) (h2 : conf.scan_frequency ≠ 2500)
    (h3 : conf.scan_frequency ≠ 5000) :
    errorRecords (update_config (some id) self conf level).trace =
      [Event.error ("Unknown scan frequency: " ++ toString conf.scan_frequency)] ∧
    frequencyCalls (update_config (some id) self conf level).trace = [] ∧
    angleCalls (update_config (some id) self conf level).trace =
      [Event.setScanAngles (validate_config conf).1.start_angle
        (validate_config conf).1.end_angle] := by
  rw [update_config_trace_some, validate_config_fst_scan_frequency,
    scanFrequencySwitch_default _ h1 h2 h3]
  rcases validate_config_snd_cases conf with h | h <;> rw [h] <;>
    simp [printConfig, errorRecords, frequencyCalls, angleCalls, Event.isError,
      Event.isSetScanFrequency, Event.isSetScanAngles]

/-- Witness for C4 at the selector 9999. -/
theorem update_config_unknown_frequency_witness :
    errorRecords (update_config (some 1) (⟨⟨2, 1, "old", 2500, ()⟩⟩ : SickLDMRS Unit)
        ⟨3, 2, "ldmrs", 9999, ()⟩ 0).trace =
      [Event.error ("Unknown scan frequency: " ++ toString (9999 : Int))] ∧
    frequencyCalls (update_config (some 1) (⟨⟨2, 1, "old", 2500, ()⟩⟩ : SickLDMRS Unit)
        ⟨3, 2, "ldmrs", 9999, ()⟩ 0).trace = [] ∧
    angleCalls (update_config (some 1) (⟨⟨2, 1, "old", 2500, ()⟩⟩ : SickLDMRS Unit)
        ⟨3, 2, "ldmrs", 9999, ()⟩ 0).trace =
      [Event.setScanAngles
        (validate_config (⟨3, 2, "ldmrs", 9999, ()⟩ : SickLDMRSDriverConfig Unit)).1.start_angle
        (validate_config (⟨3, 2, "ldmrs", 9999, ()⟩ : SickLDMRSDriverConfig Unit)).1.end_angle] :=
  update_config_unknown_frequency 1 ⟨⟨2, 1, "old", 2500, ()⟩⟩ ⟨3, 2, "ldmrs", 9999, ()⟩ 0
    (by decide) (by decide) (by decide)

/-- C5: when no device is resolved, `update_config` stores the validated
request as the current configuration, makes no device call, logs no error, and
logs the missing-device warning exactly once, for every request and every
previous state. -/
theorem update_config_no_device {Rest : Type} (self : SickLDMRS Rest)
    (conf : SickLDMRSDriverConfig Rest) (level : Nat) :
    (update_config none self conf level).self.config_ = (validate_config conf).1 ∧
    deviceCalls (update_config none self conf level).trace = [] ∧
    errorRecords (update_config none self conf level).trace = [] ∧
    ((update_config none self conf level).trace.filter
      (fun e => decide (e = Event.warn noConnectionWarning))).length = 1 := by
  refine ⟨update_config_self none self conf level, ?_, ?_, ?_⟩ <;>
    rw [update_config_trace_none] <;>
    rcases validate_config_snd_cases conf with h | h <;> rw [h] <;>
    simp [printConfig, deviceCalls, errorRecords, Event.isDeviceCall, Event.isError,
      Event.isSetScanFrequency, Event.isSetScanAngles, startAngleWarning, noConnectionWarning]

/-- C10: with a device connected, the only `setScanAngles` call of
`update_config` carries the `start_angle` and `end_angle` of the configuration
just stored; that pair has `start_angle >= end_angle`, its `end_angle` is the
requested one, and no `setScanAngles` call in the trace has its start angle
below its end angle. -/
theorem update_config_angle_call {Rest : Type} (id : Nat) (self : SickLDMRS Rest)
    (conf : SickLDMRSDriverConfig Rest) (level : Nat) :
    angleCalls (update_config (some id) self conf level).trace =
      [Event.setScanAngles (update_config (some id) self conf level).self.config_.start_angle
        (update_config (some id) self conf level).self.config_.end_angle] ∧
    (update_config (some id) self conf level).self.config_.start_angle ≥
      (update_config (some id) self conf level).self.config_.end_angle ∧
    (update_config (some id) self conf level).self.config_.end_angle = conf.end_angle ∧
    ∀ s e : ℚ, Event.setScanAngles s e ∈ (update_config (some id) self conf level).trace →
      ¬ s < e := by
  have hcalls : angleCalls (update_config (some id) self conf level).trace =
      [Event.setScanAngles (validate_config conf).1.start_angle
        (validate_config conf).1.end_angle] := by
    rw [update_config_trace_some]
    have hsw : (scanFrequencySwitch (validate_config conf).1.scan_frequency).filter
        Event.isSetScanAngles = [] := by
      simp only [scanFrequencySwitch, scanFrequencyEntry, scanFrequencyBodies]
      split_ifs <;> simp [Event.isSetScanAngles]
    rcases validate_config_snd_cases conf with h | h <;> rw [h] <;>
      simp [printConfig, angleCalls, Event.isSetScanAngles, hsw]
  rw [update_config_self]
  refine ⟨hcalls, validate_config_fst_ge conf, validate_config_fst_end_angle conf, ?_⟩
  intro s e hmem
  have h2 : Event.setScanAngles s e ∈ angleCalls (update_config (some id) self conf level).trace :=
    List.mem_filter.mpr ⟨hmem, rfl⟩
  rw [hcalls] at h2
  simp only [List.mem_singleton, Event.setScanAngles.injEq] at h2
  rw [h2.1, h2.2]
  exact not_lt.mpr (validate_config_fst_ge conf)

/-- Witness for C10 at the request `start_angle = 1`, `end_angle = 2`: the
angle call carries `(2, 2)`. -/
theorem update_config_angle_call_witness :
    Event.setScanAngles 2 2 ∈ (update_config (some 1) (⟨⟨2, 1, "old", 2500, ()⟩⟩ : SickLDMRS Unit)
        ⟨1, 2, "ldmrs", 2500, ()⟩ 0).trace ∧ ¬ ((2 : ℚ) < 2) :=
  have hmem : Event.setScanAngles 2 2 ∈
      (update_config (some 1) (⟨⟨2, 1, "old", 2500, ()⟩⟩ : SickLDMRS Unit)
        ⟨1, 2, "ldmrs", 2500, ()⟩ 0).trace := by
    simp [update_config_trace_some, validate_config]
  ⟨hmem, (update_config_angle_call 1 ⟨⟨2, 1, "old", 2500, ()⟩⟩ ⟨1, 2, "ldmrs", 2500, ()⟩ 0).2.2.2
    2 2 hmem⟩

/-- C9: applying the same request with `start_angle > end_angle` twice in a
row, device connected both times, leaves after the second call the stored
configuration of the first call, and the second call makes the same device
calls as the first; the device calls are the same from every previous
state. -/
theorem update_config_twice {Rest : Type} (id id2 : Nat) (self : SickLDMRS Rest)
    (conf : SickLDMRSDriverConfig Rest) (level level2 : Nat)
    (h : conf.start_angle > conf.end_angle) :
    (update_config (some id) self conf level).new_config = conf ∧
    (update_config (some id) self conf level).self.config_ = conf ∧
    (update_config (some id2) (update_config (some id) self conf level).self conf level2).self =
      (update_config (some id) self conf level).self ∧
    deviceCalls (update_config (some id2) (update_config (some id) self conf level).self
        conf level2).trace =
      deviceCalls (update_config (some id) self conf level).trace ∧
    ∀ other : SickLDMRS Rest,
      deviceCalls (update_config (some id) other conf level).trace =
        deviceCalls (update_config (some id) self conf level).trace := by
  have hv : (validate_config conf).1 = conf := by rw [validate_config_of_gt conf h]
  exact ⟨hv, hv, rfl, rfl, fun _ => rfl⟩

/-- Witness for C9 at the request `start_angle = 3`, `end_angle = 2`,
selector 2500. -/
theorem update_config_twice_witness :
    (3 : ℚ) > 2 ∧
    (update_config (some 1)
        (update_config (some 1) (⟨⟨2, 1, "old", 5000, ()⟩⟩ : SickLDMRS Unit)
          ⟨3, 2, "ldmrs", 2500, ()⟩ 0).self ⟨3, 2, "ldmrs", 2500, ()⟩ 0).self =
      (update_config (some 1) (⟨⟨2, 1, "old", 5000, ()⟩⟩ : SickLDMRS Unit)
        ⟨3, 2, "ldmrs", 2500, ()⟩ 0).self :=
  ⟨by norm_num,
    (update_config_twice 1 1 ⟨⟨2, 1, "old", 5000, ()⟩⟩ ⟨3, 2, "ldmrs", 2500, ()⟩ 0 0
      (by norm_num)).2.2.1⟩

/-! ## Payload dispatch -/

section strings

theorem head_append (p s : String) (c : Char) (h : p.data.head? = some c) :
    (p ++ s).data.head? = some c := by
  rw [String.data_append]
  cases hp : p.data with
  | nil => rw [hp] at h; cases h
  | cons x xs => rw [hp] at h; simpa using h

theorem ne_of_head (a b : String) (c d : Char) (ha : a.data.head? = some c)
    (hb : b.data.head? = some d) (hcd : c ≠ d) : a ≠ b := by
  intro e
  rw [e, hb] at ha
  exact hcd (Option.some.inj ha).symm

theorem label_of_head (a : String) (c : Char) (ha : a.data.head? = some c)
    (hu : c ≠ 'u') (hp : c ≠ '(') : a ≠ "" ∧ a ≠ "unknown" ∧ a ≠ "(unknown)" := by
  refine ⟨?_, ne_of_head a "unknown" c 'u' ha rfl hu, ne_of_head a "(unknown)" c '(' ha rfl hp⟩
  intro e
  rw [e] at ha
  cases ha

theorem digitChar_ne_nul : ∀ d, d < 10 → (Nat.digitChar d != Char.ofNat 0) = true := by
  decide

theorem toDigitsCore_no_nul (fuel : Nat) : ∀ (n : Nat) (acc : List Char),
    (∀ c ∈ acc, (c != Char.ofNat 0) = true) →
    ∀ c ∈ Nat.toDigitsCore 10 fuel n acc, (c != Char.ofNat 0) = true := by
  induction fuel with
  | zero => intro n acc h; simpa [Nat.toDigitsCore] using h
  | succ fuel ih =>
    intro n acc h
    have hcons : ∀ c ∈ Nat.digitChar (n % 10) :: acc, (c != Char.ofNat 0) = true := by
      intro c hc
      rcases List.mem_cons.mp hc with rfl | hc
      · exact digitChar_ne_nul _ (Nat.mod_lt _ (by decide))
      · exact h c hc
    simp only [Nat.toDigitsCore]
    split
    · exact hcons
    · exact ih _ _ hcons

theorem toString_nat_no_nul (n : Nat) :
    ∀ c ∈ (toString n).data, (c != Char.ofNat 0) = true :=
  toDigitsCore_no_nul _ _ _ (fun _ h => absurd h (List.not_mem_nil _))

theorem append_no_nul (a b : String) (ha : ∀ c ∈ a.data, (c != Char.ofNat 0) = true)
    (hb : ∀ c ∈ b.data, (c != Char.ofNat 0) = true) :
    ∀ c ∈ (a ++ b).data, (c != Char.ofNat 0) = true := by
  intro c hc
  rw [String.data_append] at hc
  rcases List.mem_append.mp hc with h | h
  · exact ha c h
  · exact hb c h

theorem c_str_of_no_nul (s : String) (h : ∀ c ∈ s.data, (c != Char.ofNat 0) = true) :
    c_str s = s := by
  unfold c_str
  rw [List.takeWhile_eq_self_iff.mpr h]

theorem c_str_toString_nat (n : Nat) : c_str (toString n) = toString n :=
  c_str_of_no_nul _ (toString_nat_no_nul n)

theorem c_str_append_of_no_nul (a b : String)
    (h : ∀ c ∈ a.data, (c != Char.ofNat 0) = true) : c_str (a ++ b) = a ++ c_str b := by
  apply String.ext
  simp only [c_str, String.data_append]
  exact List.takeWhile_append_of_pos h

theorem takeWhile_length_lt_of_nul (l : List Char) (h : Char.ofNat 0 ∈ l) :
    ¬ ((l.takeWhile (fun c => c != Char.ofNat 0)).length = l.length) := by
  intro hl
  have hsplit := List.takeWhile_append_dropWhile (fun c => c != Char.ofNat 0) l
  have hd : (l.dropWhile (fun c => c != Char.ofNat 0)).length = 0 := by
    have hlen := congrArg List.length hsplit
    rw [List.length_append] at hlen
    omega
  rw [List.length_eq_zero] at hd
  rw [hd, List.append_nil] at hsplit
  have hall := List.takeWhile_eq_self_iff.mp hsplit _ h
  simp at hall

theorem c_str_append_of_nul (a b : String) (h : Char.ofNat 0 ∈ a.data) :
    c_str (a ++ b) = c_str a := by
  apply String.ext
  simp only [c_str, String.data_append]
  rw [List.takeWhile_append, if_neg (takeWhile_length_lt_of_nul a.data h)]

theorem summary_of_no_nul (d : String) (n : Nat)
    (h : ∀ c ∈ d.data, (c != Char.ofNat 0) = true) :
    summaryRecord d (toString n) =
      Event.info ("LdmrsApp::setData(): Called with data of type " ++ d ++ " from ID " ++
        toString n) := by
  unfold summaryRecord
  rw [c_str_of_no_nul d h, c_str_toString_nat]

theorem count_no_nul (pre : String) (n : Nat) (post : String)
    (hpre : ∀ c ∈ pre.data, (c != Char.ofNat 0) = true)
    (hpost : ∀ c ∈ post.data, (c != Char.ofNat 0) = true) :
    ∀ c ∈ (pre ++ toString n ++ post).data, (c != Char.ofNat 0) = true :=
  append_no_nul _ _ (append_no_nul _ _ hpre (toString_nat_no_nul n)) hpost

end strings

/-- C7, as stated, fails: for a payload whose tag is outside the seven known
ones the string left in `datatypeStr` is not `"unknown"`. -/
theorem setData_switch_unknown_label_counterexample :
    (BasicData.mk 0 (Payload.other 0)).getDatatype.known = false ∧
    (setData_switch (BasicData.mk 0 (Payload.other 0))).1 ≠ "unknown" := by
  refine ⟨rfl, ?_⟩
  show ("(unknown)" : String) ≠ "unknown"
  decide

/-- C7, amended: for each of the seven known tags the string left in
`datatypeStr` is non-empty and different from both `"unknown"` and
`"(unknown)"`; for every other tag it is exactly `"(unknown)"`, with nothing
appended, and the `switch` writes no log record. -/
theorem setData_switch_total (data : BasicData) :
    (data.getDatatype.known = true →
      (setData_switch data).1 ≠ "" ∧ (setData_switch data).1 ≠ "unknown" ∧
        (setData_switch data).1 ≠ "(unknown)") ∧
    (data.getDatatype.known = false →
      (setData_switch data).1 = "(unknown)" ∧ (setData_switch data).2 = []) := by
  obtain ⟨sourceId, payload⟩ := data
  cases payload with
  | scan numPoints scannerInfos =>
    exact ⟨fun _ => label_of_head _ 'S' (head_append _ _ _ (head_append _ _ _ rfl))
      (by decide) (by decide), fun h => by cases h⟩
  | objects size =>
    exact ⟨fun _ => label_of_head _ 'O' (head_append _ _ _ (head_append _ _ _ rfl))
      (by decide) (by decide), fun h => by cases h⟩
  | fields numFields numberOfValidFields =>
    exact ⟨fun _ => label_of_head _ 'F'
      (head_append _ _ _ (head_append _ _ _ (head_append _ _ _ (head_append _ _ _ rfl))))
      (by decide) (by decide), fun h => by cases h⟩
  | evalCases numCases =>
    exact ⟨fun _ => label_of_head _ 'E' (head_append _ _ _ (head_append _ _ _ rfl))
      (by decide) (by decide), fun h => by cases h⟩
  | evalCaseResults size =>
    exact ⟨fun _ => label_of_head _ 'E' (head_append _ _ _ (head_append _ _ _ rfl))
      (by decide) (by decide), fun h => by cases h⟩
  | msg text =>
    exact ⟨fun _ => label_of_head _ 'M' (head_append _ _ _ (head_append _ _ _ rfl))
      (by decide) (by decide), fun h => by cases h⟩
  | measurementList size =>
    exact ⟨fun _ => label_of_head _ 'M' (head_append _ _ _ (head_append _ _ _ rfl))
      (by decide) (by decide), fun h => by cases h⟩
  | other code =>
    exact ⟨fun h => (by cases h), fun _ => ⟨rfl, rfl⟩⟩

/-- Witness for C7 (amended) at a `Msg` payload and at a payload with an
unlisted tag. -/
theorem setData_switch_total_witness :
    ((setData_switch (BasicData.mk 1 (Payload.msg "hello"))).1 ≠ "" ∧
      (setData_switch (BasicData.mk 1 (Payload.msg "hello"))).1 ≠ "unknown" ∧
      (setData_switch (BasicData.mk 1 (Payload.msg "hello"))).1 ≠ "(unknown)") ∧
    ((setData_switch (BasicData.mk 1 (Payload.other 42))).1 = "(unknown)" ∧
      (setData_switch (BasicData.mk 1 (Payload.other 42))).2 = []) :=
  ⟨(setData_switch_total (BasicData.mk 1 (Payload.msg "hello"))).1 rfl,
    (setData_switch_total (BasicData.mk 1 (Payload.other 42))).2 rfl⟩

/-- C8, as stated, fails for the non-Scan payloads: for the `Msg` payload with
text `a`, NUL, `b` from source 7 the kind description is `Msg (a`, NUL, `b)`,
and the one record `setData` writes stops the description at the NUL, so the
record does not contain the kind description. -/
theorem setData_summary_cut_counterexample :
    (setData_switch (BasicData.mk 7 (Payload.msg "a\x00b"))).1 = "Msg (a\x00b)" ∧
    setData (BasicData.mk 7 (Payload.msg "a\x00b")) =
      [Event.info "LdmrsApp::setData(): Called with data of type Msg (a from ID 7"] ∧
    ¬ List.IsInfix ("Msg (a\x00b)" : String).data
      ("LdmrsApp::setData(): Called with data of type Msg (a from ID 7" : String).data := by
  refine ⟨by decide, by decide, ?_⟩
  intro h
  have hmem : Char.ofNat 0 ∈
      ("LdmrsApp::setData(): Called with data of type Msg (a from ID 7" : String).data :=
    h.subset (by decide)
  revert hmem
  decide

/-- C8, amended: for a Scan payload with scanner heads `scannerInfos`, `setData`
writes one start-timestamp record per head, in head order, each holding that
head's timestamp text up to its first NUL character, followed by the one
summary record holding the whole kind description and the source id, so
`scannerInfos.length + 1` records in all.  For every payload that is not a Scan
it writes the summary record only; that record holds the whole kind description
and the source id, except for a `Msg` whose text has a NUL character, where the
description stops before that NUL. -/
theorem setData_records :
    (∀ (sourceId numPoints : Nat) (scannerInfos : List ScannerInfo),
      setData (BasicData.mk sourceId (Payload.scan numPoints scannerInfos)) =
          scannerInfos.map (fun head =>
            Event.info ("LdmrsApp::setData(): Scan start time: " ++
              String.mk (head.startTimestamp.text.data.takeWhile
                (fun c => c != Char.ofNat 0)))) ++
          [Event.info ("LdmrsApp::setData(): Called with data of type " ++
            ("Scan (" ++ toString numPoints ++ " points)") ++ " from ID " ++
            toString sourceId)] ∧
        (setData (BasicData.mk sourceId (Payload.scan numPoints scannerInfos))).length =
          scannerInfos.length + 1) ∧
    (∀ sourceId size : Nat,
      setData (BasicData.mk sourceId (Payload.objects size)) =
        [Event.info ("LdmrsApp::setData(): Called with data of type " ++
          ("Objects (" ++ toString size ++ " objects)") ++ " from ID " ++
          toString sourceId)]) ∧
    (∀ sourceId numFields numberOfValidFields : Nat,
      setData (BasicData.mk sourceId (Payload.fields numFields numberOfValidFields)) =
        [Event.info ("LdmrsApp::setData(): Called with data of type " ++
          ("Fields (" ++ toString numFields ++ " fields, " ++
            toString numberOfValidFields ++ " of which are valid)") ++ " from ID " ++
          toString sourceId)]) ∧
    (∀ sourceId numCases : Nat,
      setData (BasicData.mk sourceId (Payload.evalCases numCases)) =
        [Event.info ("LdmrsApp::setData(): Called with data of type " ++
          ("EvalCases (" ++ toString numCases ++ " cases)") ++ " from ID " ++
          toString sourceId)]) ∧
    (∀ sourceId size : Nat,
      setData (BasicData.mk sourceId (Payload.evalCaseResults size)) =
        [Event.info ("LdmrsApp::setData(): Called with data of type " ++
          ("EvalCaseResults (" ++ toString size ++ " case results)") ++ " from ID " ++
          toString sourceId)]) ∧
    (∀ (sourceId : Nat) (text : String),
      setData (BasicData.mk sourceId (Payload.msg text)) =
        [Event.info ("LdmrsApp::setData(): Called with data of type " ++
          (if Char.ofNat 0 ∈ text.data then
            "Msg (" ++ String.mk (text.data.takeWhile (fun c => c != Char.ofNat 0))
          else "Msg (" ++ text ++ ")") ++ " from ID " ++
          toString sourceId)]) ∧
    (∀ sourceId size : Nat,
      setData (BasicData.mk sourceId (Payload.measurementList size)) =
        [Event.info ("LdmrsApp::setData(): Called with data of type " ++
          ("MeasurementList (" ++ toString size ++ " entries)") ++ " from ID " ++
          toString sourceId)]) ∧
    (∀ sourceId code : Nat,
      setData (BasicData.mk sourceId (Payload.other code)) =
        [Event.info ("LdmrsApp::setData(): Called with data of type " ++
          "(unknown)" ++ " from ID " ++ toString sourceId)]) := by
  refine ⟨?_, ?_, ?_, ?_, ?_, ?_, ?_, ?_⟩
  · intro sourceId numPoints scannerInfos
    have hrec : setData (BasicData.mk sourceId (Payload.scan numPoints scannerInfos)) =
        scannerInfos.map scanStartRecord ++
          [summaryRecord ("Scan (" ++ toString numPoints ++ " points)") (toString sourceId)] :=
      rfl
    refine ⟨?_, ?_⟩
    · rw [hrec, summary_of_no_nul _ _
        (count_no_nul _ _ _ (by decide) (by decide))]
      rfl
    · rw [hrec]
      simp
  · intro sourceId size
    exact congrArg (fun e => [e]) (summary_of_no_nul _ _
      (count_no_nul _ _ _ (by decide) (by decide)))
  · intro sourceId numFields numberOfValidFields
    exact congrArg (fun e => [e]) (summary_of_no_nul _ _
      (append_no_nul _ _ (append_no_nul _ _
        (count_no_nul _ _ _ (by decide) (by decide)) (toString_nat_no_nul _)) (by decide)))
  · intro sourceId numCases
    exact congrArg (fun e => [e]) (summary_of_no_nul _ _
      (count_no_nul _ _ _ (by decide) (by decide)))
  · intro sourceId size
    exact congrArg (fun e => [e]) (summary_of_no_nul _ _
      (count_no_nul _ _ _ (by decide) (by decide)))
  · intro sourceId text
    have hrec : setData (BasicData.mk sourceId (Payload.msg text)) =
        [Event.info ("LdmrsApp::setData(): Called with data of type " ++
          c_str ("Msg (" ++ text ++ ")") ++ " from ID " ++ c_str (toString sourceId))] := rfl
    rw [hrec, c_str_toString_nat]
    by_cases h : Char.ofNat 0 ∈ text.data
    · have hmem : Char.ofNat 0 ∈ ("Msg (" ++ text).data := by
        rw [String.data_append]
        exact List.mem_append.mpr (Or.inr h)
      rw [if_pos h, c_str_append_of_nul _ _ hmem, c_str_append_of_no_nul _ _ (by decide)]
      rfl
    · have hno : ∀ c ∈ text.data, (c != Char.ofNat 0) = true := by
        intro c hc
        have hne : c ≠ Char.ofNat 0 := fun e => h (e ▸ hc)
        simpa using hne
      rw [if_neg h, c_str_of_no_nul _
        (append_no_nul _ _ (append_no_nul _ _ (by decide) hno) (by decide))]
  · intro sourceId size
    exact congrArg (fun e => [e]) (summary_of_no_nul _ _
      (count_no_nul _ _ _ (by decide) (by decide)))
  · intro sourceId code
    exact congrArg (fun e => [e]) (summary_of_no_nul "(unknown)" sourceId (by decide))

/-- Witness for C8 (amended) at a Scan payload with three scanner heads: three
start-timestamp records and the summary record. -/
theorem setData_records_witness :
    setData (BasicData.mk 7 (Payload.scan 580 [⟨⟨"t0"⟩⟩, ⟨⟨"t1"⟩⟩, ⟨⟨"t2"⟩⟩])) =
      [Event.info "LdmrsApp::setData(): Scan start time: t0",
        Event.info "LdmrsApp::setData(): Scan start time: t1",
        Event.info "LdmrsApp::setData(): Scan start time: t2",
        Event.info "LdmrsApp::setData(): Called with data of type Scan (580 points) from ID 7"] :=
  ((setData_records.1 7 580 [⟨⟨"t0"⟩⟩, ⟨⟨"t1"⟩⟩, ⟨⟨"t2"⟩⟩]).1).trans (by decide)

end sick_ldmrs_driver
